import Mathlib

/-!
Verification of the Fleeks SDK container-lifecycle module
(`fleeks_sdk/lifecycle.py` and `fleeks_sdk/containers.py`) against its
natural-language specification.

The Python source is shallowly embedded: Python dicts become association
lists over a small JSON value type, `dict.get(k, d)` becomes a lookup with
default, enum classes become inductive types carrying their string values,
and dataclass `from_dict`/`to_dict` become Lean functions.  `from_dict`
returns `Option`: `none` models a `KeyError` on a required key or a type /
enum-value mismatch that Python would surface as an exception (or an
ill-typed field, which never occurs on the well-typed inputs considered
here).
-/

/-- A JSON-like value as it appears in the Python dicts handled by the SDK:
null, booleans, integers and strings cover every field of the lifecycle
payloads. -/
inductive JsonValue where
  | null : JsonValue
  | bool : Bool → JsonValue
  | int : Int → JsonValue
  | str : String → JsonValue
deriving DecidableEq, Repr

/-- A Python dict with string keys, embedded as an association list. -/
abbrev JsonDict := List (String × JsonValue)

/-- `data.get(k, default)` where an `int` is expected: absent key yields the
default; a present non-int value is a type mismatch (modelled as failure). -/
def getIntD (d : JsonDict) (k : String) (dflt : Int) : Option Int :=
  match d.lookup k with
  | none => some dflt
  | some (.int n) => some n
  | some _ => none

/-- `data.get(k, default)` where a `str` is expected. -/
def getStrD (d : JsonDict) (k : String) (dflt : String) : Option String :=
  match d.lookup k with
  | none => some dflt
  | some (.str s) => some s
  | some _ => none

/-- `data.get(k, default)` where a `bool` is expected. -/
def getBoolD (d : JsonDict) (k : String) (dflt : Bool) : Option Bool :=
  match d.lookup k with
  | none => some dflt
  | some (.bool b) => some b
  | some _ => none

/-- `data[k]` where a `str` is expected: absent key is a `KeyError`. -/
def getStr (d : JsonDict) (k : String) : Option String :=
  match d.lookup k with
  | some (.str s) => some s
  | _ => none

/-- `data.get(k)` where an optional `int` is expected: absent key and stored
null both yield Python `None`. -/
def getOptInt (d : JsonDict) (k : String) : Option (Option Int) :=
  match d.lookup k with
  | none => some none
  | some .null => some none
  | some (.int n) => some (some n)
  | some _ => none

/-- The `IdleAction` enum of `lifecycle.py`: action to take when a container
becomes idle. -/
inductive IdleAction where
  | SHUTDOWN : IdleAction
  | HIBERNATE : IdleAction
  | KEEP_ALIVE : IdleAction
deriving DecidableEq, Repr

/-- The string value of each `IdleAction` member (`.value` in Python). -/
def IdleAction.value : IdleAction → String
  | .SHUTDOWN => "shutdown"
  | .HIBERNATE => "hibernate"
  | .KEEP_ALIVE => "keep_alive"

/-- The enum-constructor call `IdleAction(s)`: returns the member with string
value `s`, or fails (Python `ValueError`) on any other string. -/
def IdleAction.ofValue (s : String) : Option IdleAction :=
  if s = "shutdown" then some .SHUTDOWN
  else if s = "hibernate" then some .HIBERNATE
  else if s = "keep_alive" then some .KEEP_ALIVE
  else none

/-- The `LifecycleState` enum of `lifecycle.py`, members in source order. -/
inductive LifecycleState where
  | RUNNING : LifecycleState
  | HIBERNATING : LifecycleState
  | STOPPED : LifecycleState
  | STARTING : LifecycleState
  | WAKING : LifecycleState
deriving DecidableEq, Repr

/-- The string value of each `LifecycleState` member (`.value` in Python). -/
def LifecycleState.value : LifecycleState → String
  | .RUNNING => "running"
  | .HIBERNATING => "hibernating"
  | .STOPPED => "stopped"
  | .STARTING => "starting"
  | .WAKING => "waking"

/-- The `LifecycleConfig` dataclass of `lifecycle.py`. -/
structure LifecycleConfig where
  idle_timeout_minutes : Int := 30
  max_duration_hours : Option Int := none
  idle_action : IdleAction := .SHUTDOWN
  auto_wake : Bool := true
  keep_alive_on_preview : Bool := false
  heartbeat_interval_seconds : Int := 300
deriving DecidableEq, Repr

/-- `LifecycleConfig.to_dict`: the dict literal built by the Python method,
keys in source order. -/
def LifecycleConfig.to_dict (c : LifecycleConfig) : JsonDict :=
  [ ("idle_timeout_minutes", .int c.idle_timeout_minutes),
    ("max_duration_hours",
      match c.max_duration_hours with
      | none => .null
      | some n => .int n),
    ("idle_action", .str c.idle_action.value),
    ("auto_wake", .bool c.auto_wake),
    ("keep_alive_on_preview", .bool c.keep_alive_on_preview),
    ("heartbeat_interval_seconds", .int c.heartbeat_interval_seconds) ]

/-- `LifecycleConfig.from_dict`: each field is read with `data.get` and the
source's default; `idle_action` goes through the `IdleAction(...)` enum
constructor, whose `ValueError` is modelled as `none`. -/
def LifecycleConfig.from_dict (data : JsonDict) : Option LifecycleConfig := do
  let idle_timeout_minutes ← getIntD data "idle_timeout_minutes" 30
  let max_duration_hours ← getOptInt data "max_duration_hours"
  let idle_action_value ← getStrD data "idle_action" "shutdown"
  let idle_action ← IdleAction.ofValue idle_action_value
  let auto_wake ← getBoolD data "auto_wake" true
  let keep_alive_on_preview ← getBoolD data "keep_alive_on_preview" false
  let heartbeat_interval_seconds ← getIntD data "heartbeat_interval_seconds" 300
  some { idle_timeout_minutes, max_duration_hours, idle_action, auto_wake,
         keep_alive_on_preview, heartbeat_interval_seconds }

/-- The `TimeoutExtensionResponse` dataclass of `lifecycle.py`, fields in
source order; `minutes_extended` defaults to 0. -/
structure TimeoutExtensionResponse where
  container_id : String
  success : Bool
  new_timeout_at : String
  added_minutes : Int
  max_allowed_minutes : Int
  message : String
  minutes_extended : Int := 0
deriving DecidableEq, Repr

/-- `TimeoutExtensionResponse.from_dict`: `added = data.get('added_minutes', 0)`
is read first; `container_id` and `new_timeout_at` are required
(`data[...]`), the rest use `data.get` with the source's defaults, and
`minutes_extended` defaults to `added` when absent. -/
def TimeoutExtensionResponse.from_dict (data : JsonDict) :
    Option TimeoutExtensionResponse := do
  let added ← getIntD data "added_minutes" 0
  let container_id ← getStr data "container_id"
  let success ← getBoolD data "success" true
  let new_timeout_at ← getStr data "new_timeout_at"
  let max_allowed_minutes ← getIntD data "max_allowed_minutes" 30
  let message ← getStrD data "message" ""
  let minutes_extended ← getIntD data "minutes_extended" added
  some { container_id, success, new_timeout_at, added_minutes := added,
         max_allowed_minutes, message, minutes_extended }

/-- One entry of the `TIER_LIMITS` table: `max_idle_timeout_minutes` and
`max_extensions` are `None` (unlimited) or an integer; `hibernate` and
`keep_alive` are capability booleans. -/
structure TierLimits where
  max_idle_timeout_minutes : Option Int
  max_extensions : Option Int
  hibernate : Bool
  keep_alive : Bool
deriving DecidableEq, Repr

/-- The `'FREE'` entry of `TIER_LIMITS`. -/
def freeLimits : TierLimits :=
  { max_idle_timeout_minutes := some 30, max_extensions := some 0,
    hibernate := false, keep_alive := false }

/-- The `'BASIC'` entry of `TIER_LIMITS`. -/
def basicLimits : TierLimits :=
  { max_idle_timeout_minutes := some 60, max_extensions := some 2,
    hibernate := false, keep_alive := false }

/-- The `'PRO'` entry of `TIER_LIMITS`. -/
def proLimits : TierLimits :=
  { max_idle_timeout_minutes := some 120, max_extensions := some 5,
    hibernate := true, keep_alive := false }

/-- The `'ULTIMATE'` entry of `TIER_LIMITS`. -/
def ultimateLimits : TierLimits :=
  { max_idle_timeout_minutes := some 240, max_extensions := some 10,
    hibernate := true, keep_alive := false }

/-- The `'ENTERPRISE'` entry of `TIER_LIMITS` (both limits unlimited). -/
def enterpriseLimits : TierLimits :=
  { max_idle_timeout_minutes := none, max_extensions := none,
    hibernate := true, keep_alive := true }

/-- The `TIER_LIMITS` dict of `lifecycle.py`, entries in source order. -/
def TIER_LIMITS : List (String × TierLimits) :=
  [ ("FREE", freeLimits),
    ("BASIC", basicLimits),
    ("PRO", proLimits),
    ("ULTIMATE", ultimateLimits),
    ("ENTERPRISE", enterpriseLimits) ]

/-- `TIER_LIMITS[tier]`: dict indexing, where a missing key is a `KeyError`
(modelled as `none`), never a silent default. -/
def tierLimits (tier : String) : Option TierLimits :=
  TIER_LIMITS.lookup tier

/-- The value the SDK actually sends as `additional_minutes` in
`ContainerManager.extend_timeout`: the Python expression
`max(1, min(480, additional_minutes))` from `containers.py`. -/
def extendTimeoutSentMinutes (additional_minutes : Int) : Int :=
  max 1 (min 480 additional_minutes)

/-- Modelled from the spec: the backend `LifecycleController.extend_timeout`
tier gate, absent from the SDK sources — the call "fails
`TierLimitExceededError` if `extensions_used ≥ tier.max_extensions`"
(unlimited when null); this predicate is true when the extension is
allowed. -/
def extendAllowed (l : TierLimits) (extensions_used : Nat) : Bool :=
  match l.max_extensions with
  | none => true
  | some m => (extensions_used : Int) < m

/-- Modelled from the spec: the backend `LifecycleController.set_keep_alive`
tier gate, absent from the SDK sources — enabling "fails
`TierLimitExceededError` if enabling and tier lacks `supports_keep_alive`;
disabling is always permitted". -/
def setKeepAliveAllowed (l : TierLimits) (enabled : Bool) : Bool :=
  !enabled || l.keep_alive

/-- Comparison of two optional integer limits where `none` means unlimited:
`optIntLtTop a b` holds when `a` is strictly below `b`, treating `none` as
greater than every integer. -/
def optIntLtTop (a b : Option Int) : Bool :=
  match a, b with
  | some x, some y => x < y
  | some _, none => true
  | none, _ => false

/-- One monotonicity step between two adjacent tiers' limits: both numeric
limits strictly increase (with `none` as unbounded top) and neither boolean
capability is lost. -/
def tierStrictStep (a b : TierLimits) : Bool :=
  optIntLtTop a.max_idle_timeout_minutes b.max_idle_timeout_minutes &&
  optIntLtTop a.max_extensions b.max_extensions &&
  (!a.hibernate || b.hibernate) &&
  (!a.keep_alive || b.keep_alive)

/-- C1: for every tier in the `TIER_LIMITS` table, the recorded `hibernate`
capability is true exactly when the tier is PRO, ULTIMATE or ENTERPRISE;
in particular FREE and BASIC do not support hibernation. -/
theorem tier_hibernate_iff_pro_and_above :
    ∀ p ∈ TIER_LIMITS,
      p.2.hibernate = true ↔ (p.1 = "PRO" ∨ p.1 = "ULTIMATE" ∨ p.1 = "ENTERPRISE") := by
  decide

/-- Witness for C1: the PRO entry of the table records hibernate support. -/
theorem tier_hibernate_iff_pro_and_above_witness : proLimits.hibernate = true :=
  (tier_hibernate_iff_pro_and_above ("PRO", proLimits) (by decide)).mpr (Or.inl rfl)

/-- C2: the FREE tier's recorded limits are a 30-minute maximum idle timeout
and 0 maximum extensions, so under the spec's extension gate every
`extend_timeout` request for a FREE-tier container is rejected, whatever
the extension count. -/
theorem free_tier_extend_always_fails :
    tierLimits "FREE" = some freeLimits ∧
    freeLimits.max_idle_timeout_minutes = some 30 ∧
    freeLimits.max_extensions = some 0 ∧
    ∀ extensions_used : Nat, extendAllowed freeLimits extensions_used = false := by
  refine ⟨rfl, rfl, rfl, fun n => ?_⟩
  simp [extendAllowed, freeLimits]

/-- C4: looking up any tier name other than the five known tiers in
`TIER_LIMITS` yields no limits at all (a `KeyError`, modelled as `none`),
never a default capability set. -/
theorem unknown_tier_lookup_fails :
    ∀ tier : String, tier ≠ "FREE" → tier ≠ "BASIC" → tier ≠ "PRO" →
      tier ≠ "ULTIMATE" → tier ≠ "ENTERPRISE" → tierLimits tier = none := by
  intro t h1 h2 h3 h4 h5
  simp [tierLimits, TIER_LIMITS, List.lookup,
    beq_eq_false_iff_ne.mpr h1, beq_eq_false_iff_ne.mpr h2,
    beq_eq_false_iff_ne.mpr h3, beq_eq_false_iff_ne.mpr h4,
    beq_eq_false_iff_ne.mpr h5]

/-- Witness for C4: the unknown tier name GOLD has no limits entry. -/
theorem unknown_tier_lookup_fails_witness : tierLimits "GOLD" = none :=
  unknown_tier_lookup_fails "GOLD" (by decide) (by decide) (by decide)
    (by decide) (by decide)

/-- C5: for every tier in the `TIER_LIMITS` table, the recorded `keep_alive`
capability is true exactly when the tier is ENTERPRISE, and under the
spec's gate, enabling keep-alive on any non-ENTERPRISE tier is rejected. -/
theorem keep_alive_enterprise_only :
    TIER_LIMITS.all (fun p =>
      (p.2.keep_alive == (p.1 == "ENTERPRISE")) &&
      ((p.1 == "ENTERPRISE") || !(setKeepAliveAllowed p.2 true))) = true := by
  decide

/-- C6: the table's keys are exactly the five tiers, and ENTERPRISE is the
only tier whose `max_idle_timeout_minutes` and `max_extensions` are null
(unlimited); the other four tiers have both limits as finite integers. -/
theorem enterprise_only_unlimited :
    TIER_LIMITS.map Prod.fst = ["FREE", "BASIC", "PRO", "ULTIMATE", "ENTERPRISE"] ∧
    TIER_LIMITS.all (fun p =>
      (p.2.max_idle_timeout_minutes.isNone == (p.1 == "ENTERPRISE")) &&
      (p.2.max_extensions.isNone == (p.1 == "ENTERPRISE"))) = true :=
  ⟨rfl, by decide⟩

/-- C7: every `LifecycleState` is one of the five states STARTING, RUNNING,
HIBERNATING, WAKING, STOPPED; their string values are as documented and
the five states are pairwise distinct (their values admit no repeats). -/
theorem lifecycle_states_exactly_five :
    (∀ s : LifecycleState,
      s = .STARTING ∨ s = .RUNNING ∨ s = .HIBERNATING ∨ s = .WAKING ∨ s = .STOPPED) ∧
    LifecycleState.STARTING.value = "starting" ∧
    LifecycleState.RUNNING.value = "running" ∧
    LifecycleState.HIBERNATING.value = "hibernating" ∧
    LifecycleState.WAKING.value = "waking" ∧
    LifecycleState.STOPPED.value = "stopped" ∧
    ([LifecycleState.STARTING, .RUNNING, .HIBERNATING, .WAKING, .STOPPED] :
      List LifecycleState).Nodup ∧
    ([LifecycleState.STARTING, .RUNNING, .HIBERNATING, .WAKING, .STOPPED].map
      LifecycleState.value).Nodup := by
  refine ⟨fun s => ?_, rfl, rfl, rfl, rfl, rfl, by decide, by decide⟩
  cases s <;> simp

/-- C9: along the tier order FREE, BASIC, PRO, ULTIMATE, ENTERPRISE (the
table's own order), both numeric limits are strictly increasing (null
treated as unbounded) and neither capability flag ever drops from a lower
tier to a higher one. -/
theorem tier_limits_monotone :
    TIER_LIMITS.map Prod.fst = ["FREE", "BASIC", "PRO", "ULTIMATE", "ENTERPRISE"] ∧
    List.Chain' (fun a b => tierStrictStep a.2 b.2 = true) TIER_LIMITS := by
  refine ⟨rfl, ?_⟩
  simp only [TIER_LIMITS, List.chain'_cons, List.chain'_singleton]
  refine ⟨?_, ?_, ?_, ?_⟩ <;> decide

/-- C3 counterexample: for a FREE-tier container (whose recorded maximum idle
timeout, hence any remaining allowance, is 30 minutes) the SDK sends 100
minutes for the input 100 — above the tier's allowance, so the value sent
is not clamped to `[1, tier.max_idle_timeout_remaining]`. -/
theorem extend_timeout_not_tier_clamped :
    extendTimeoutSentMinutes 100 = 100 ∧
    tierLimits "FREE" = some freeLimits ∧
    freeLimits.max_idle_timeout_minutes = some 30 ∧
    ¬((100 : Int) ≤ 30) :=
  ⟨rfl, rfl, rfl, by decide⟩

/-- C3 (amended): `ContainerManager.extend_timeout` clamps the requested
minutes to the fixed interval `[1, 480]`, independent of any tier: the
value sent is never below 1, never above 480, and equals the input
whenever the input already lies in `[1, 480]`. -/
theorem extend_timeout_clamps_to_fixed_interval :
    ∀ n : Int,
      1 ≤ extendTimeoutSentMinutes n ∧
      extendTimeoutSentMinutes n ≤ 480 ∧
      (1 ≤ n → n ≤ 480 → extendTimeoutSentMinutes n = n) ∧
      (n ≤ 1 → extendTimeoutSentMinutes n = 1) ∧
      (480 ≤ n → extendTimeoutSentMinutes n = 480) := by
  intro n
  unfold extendTimeoutSentMinutes
  refine ⟨le_max_left 1 _, max_le (by norm_num) (min_le_left _ _), ?_, ?_, ?_⟩
  · intro h1 h2
    rw [min_eq_right h2, max_eq_right h1]
  · intro h
    rw [min_eq_right (by omega : n ≤ (480 : Int)), max_eq_left h]
  · intro h
    rw [min_eq_left h]
    norm_num

/-- Witness for C3: an in-range request of 37 minutes is sent unchanged. -/
theorem extend_timeout_clamps_witness : extendTimeoutSentMinutes 37 = 37 :=
  (extend_timeout_clamps_to_fixed_interval 37).2.2.1 (by norm_num) (by norm_num)

/-- C8: serialising any `LifecycleConfig` with `to_dict` and parsing it back
with `from_dict` recovers the configuration exactly. -/
theorem lifecycle_config_roundtrip :
    ∀ c : LifecycleConfig, LifecycleConfig.from_dict c.to_dict = some c := by
  intro c
  obtain ⟨itm, mdh, ia, aw, kap, hbi⟩ := c
  cases mdh <;> cases ia <;> rfl

/-- C10: whenever the backend response omits the `minutes_extended` key, the
parsed `TimeoutExtensionResponse` has `minutes_extended` equal to its
`added_minutes` field. -/
theorem minutes_extended_defaults_to_added :
    ∀ (d : JsonDict) (r : TimeoutExtensionResponse),
      d.lookup "minutes_extended" = none →
      TimeoutExtensionResponse.from_dict d = some r →
      r.minutes_extended = r.added_minutes := by
  intro d r hnone h
  simp only [TimeoutExtensionResponse.from_dict, Option.bind_eq_some, bind,
    Option.some.injEq] at h
  obtain ⟨added, hadded, cid, hcid, succ, hsucc, nta, hnta, mam, hmam, msg,
    hmsg, me, hme, hr⟩ := h
  simp only [getIntD, hnone, Option.some.injEq] at hme
  subst hme
  subst hr
  rfl

/-- Witness for C10: a response dict with `added_minutes = 5` and no
`minutes_extended` key parses to a record whose two fields agree. -/
theorem minutes_extended_defaults_witness :
    (TimeoutExtensionResponse.mk "c1" true "t0" 5 30 "" 5).minutes_extended =
    (TimeoutExtensionResponse.mk "c1" true "t0" 5 30 "" 5).added_minutes :=
  minutes_extended_defaults_to_added
    [("container_id", .str "c1"), ("new_timeout_at", .str "t0"),
     ("added_minutes", .int 5)]
    (TimeoutExtensionResponse.mk "c1" true "t0" 5 30 "" 5) rfl rfl
